import Mathlib

/-!
Verification of the request-handling path of the Ollama metrics proxy
(`cmd/ollama-proxy-metrics/main.go`).

The handler `proxyHandler` is embedded as a pure function from an
environment (the outcome of each I/O interaction: inbound body read,
upstream call, buffered read of the upstream body, client write, stream
copy) to a result: the status sent to the client, the ordered list of
metric-registry updates performed, and the number of upstream calls made.

JSON request/response bodies are modelled at the parsed-value level
(`Jv`), with `Option Jv` standing for the raw bytes: `none` means the
bytes are absent, empty, or not valid JSON; `some v` means they parse to
the JSON document `v`.  Objects are ordered key/value lists, so duplicate
keys are representable, exactly as on the wire.  The decoding functions
below translate Go's `encoding/json` unmarshalling semantics for the two
struct types the program uses:
  - field names match JSON keys case-insensitively (Go's `EqualFold`,
    see `keyFoldChar`);
  - keys are processed in document order, so a later entry for the same
    field overwrites an earlier one;
  - a JSON `null` for a pointer-typed field (`*bool`, `*int64`) sets the
    pointer back to nil; `null` for a plain `string` field has no effect;
  - a wrong-typed value for a known field records a decode error and
    decoding continues; a plain (non-pointer) field is left unchanged,
    but for a pointer-typed field Go's `indirect` allocates the pointee
    at its zero value before the type check, so a wrong-typed non-null
    value leaves a previously nil `*bool` at `&false` (a body such as
    `{"stream":"true"}` therefore selects BUFFERED mode).  For the two
    `*int64` token fields the model keeps the field unchanged instead:
    the allocation is unobservable there, because any wrong-typed token
    entry also makes the unmarshal error, and the `err == nil` guard at
    main.go line 228 then discards the whole decoded struct;
  - unknown keys are skipped without error;
  - an `int64` field accepts only integer-syntax number literals that fit
    in 64 bits (`Jv.int` models such literals, `Jv.nonIntNum` any other
    number literal); anything else is a type error.
Go's `json.Unmarshal` on a struct target errors on invalid JSON and on
non-object, non-null documents; a top-level `null` leaves the struct at
its zero value without error.

Durations are modelled as bare observation events (the claims only count
them and inspect their labels); counter amounts are modelled as the exact
integer handed to `Add` (the `float64` conversion of an `int64` is
treated as exact).
-/

namespace OllamaProxy

/-- Parsed JSON documents. `nonIntNum` is a number literal that is not
integer syntax (e.g. `3.5`, `3.0`, `1e2`); its value is irrelevant to
this program, which only decodes numbers into `*int64` fields. -/
inductive Jv where
  | null : Jv
  | bool (b : Bool) : Jv
  | str (s : String) : Jv
  | int (z : Int) : Jv
  | nonIntNum : Jv
  | arr (xs : List Jv) : Jv
  | obj (fields : List (String × Jv)) : Jv

/-- One-character key folding.  Go matches JSON keys to struct field
names with `EqualFold` (Unicode simple folding); restricted to this
program's all-ASCII field names, that relation is captured by folding
ASCII upper-case letters to lower case together with the only two
non-ASCII runes whose simple-fold orbit contains an ASCII letter:
U+017F (long s) folds to `s` and U+212A (Kelvin sign) folds to `k`. -/
def keyFoldChar (c : Char) : Char :=
  if 'A' ≤ c ∧ c ≤ 'Z' then Char.ofNat (c.toNat + 32)
  else if c = Char.ofNat 0x17F then 's'
  else if c = Char.ofNat 0x212A then 'k'
  else c

/-- Key folding of a string, character by character. -/
def keyFold (s : String) : String :=
  String.mk (s.data.map keyFoldChar)

/-- Case-insensitive match of a JSON key against a (lowercase ASCII) Go
field name, modelling `encoding/json` field matching. -/
def keyIs (k field : String) : Bool :=
  keyFold k == field

/-- Go struct `RequestPayload { Model string; Stream *bool }` from
main.go lines 21-24; zero value is the empty string and a nil pointer. -/
structure RequestPayload where
  model : String := ""
  stream : Option Bool := none
deriving DecidableEq, Repr

/-- One decode step for the `Model string` field: a string value for a
`model` key overwrites, any other value (wrong type, or null, which has
no effect on a plain string field) leaves it. -/
def modelStep (m : String) (kv : String × Jv) : String :=
  if keyIs kv.1 "model" then
    match kv.2 with
    | .str s => s
    | _ => m
  else m

/-- One decode step for the `Stream *bool` field: a boolean sets the
pointer, a JSON null resets it to nil, and any other (wrong-typed,
non-null) value makes `encoding/json` allocate the pointee at its zero
value BEFORE the type check fails — a nil pointer becomes `&false`,
while an already-set pointer keeps its value (`some (o.getD false)`). -/
def streamStep (o : Option Bool) (kv : String × Jv) : Option Bool :=
  if keyIs kv.1 "stream" then
    match kv.2 with
    | .bool b => some b
    | .null => none
    | _ => some (o.getD false)
  else o

/-- `json.Unmarshal(bodyBuf, &payload)` for `RequestPayload` (main.go
line 152; the returned error is discarded there).  The two fields are
decoded by independent folds over the object's entries; this is the
per-key dispatch of `encoding/json`, componentwise, which coincides with
the sequential loop because the two field names are distinct. -/
def unmarshalRequestPayload : Option Jv → RequestPayload
  | some (.obj fs) =>
      { model := fs.foldl modelStep "", stream := fs.foldl streamStep none }
  | _ => {}

/-- Lines 154-157 of main.go: the metric label for the model. -/
def extractedModel (b : Option Jv) : String :=
  let m := (unmarshalRequestPayload b).model
  if m = "" then "unknown" else m

/-- Lines 159-162 of main.go: the stream flag, defaulting to true when
the decoded pointer is nil. -/
def extractedStream (b : Option Jv) : Bool :=
  (unmarshalRequestPayload b).stream.getD true

/-- Lines 163-166 of main.go: the string form of the stream flag. -/
def streamLabel (b : Bool) : String :=
  if b then "true" else "false"

/-- The decoded `model` field viewed as an optional value: `some s` when
the decode loop has seen a string-valued `model` entry (the last one
wins), `none` otherwise. -/
def goModelStep (a : Option String) (kv : String × Jv) : Option String :=
  if keyIs kv.1 "model" then
    match kv.2 with
    | .str s => some s
    | _ => a
  else a

/-- Optional-valued view of the decoded `model` field of the body. -/
def goModelField : Option Jv → Option String
  | some (.obj fs) => fs.foldl goModelStep none
  | _ => none

/-- The decoded `stream` pointer of the body (same fold the unmarshal
uses). -/
def goStreamField : Option Jv → Option Bool
  | some (.obj fs) => fs.foldl streamStep none
  | _ => none

/-- Is this JSON value a string? -/
def isStrVal : Jv → Bool
  | .str _ => true
  | _ => false

/-- Is this JSON value a boolean? -/
def isBoolVal : Jv → Bool
  | .bool _ => true
  | _ => false

/-- An object entry that is a string-valued `model` field. -/
def strModelEntry (kv : String × Jv) : Bool :=
  keyIs kv.1 "model" && isStrVal kv.2

/-- An object entry that is a boolean-valued `stream` field. -/
def boolStreamEntry (kv : String × Jv) : Bool :=
  keyIs kv.1 "stream" && isBoolVal kv.2

/-- An object entry that is a `stream` field with boolean value `v`. -/
def boolStreamEntryWith (v : Bool) (kv : String × Jv) : Bool :=
  keyIs kv.1 "stream" &&
    (match kv.2 with
     | .bool w => w == v
     | _ => false)

/-- An object entry whose key matches the `stream` field, of any type. -/
def streamKeyEntry (kv : String × Jv) : Bool :=
  keyIs kv.1 "stream"

/-- An object entry that is a `stream` field with value JSON null. -/
def nullStreamEntry (kv : String × Jv) : Bool :=
  keyIs kv.1 "stream" &&
    (match kv.2 with
     | .null => true
     | _ => false)

/-- The body is a JSON object containing a string-valued `model` field. -/
def hasStringModelField : Option Jv → Bool
  | some (.obj fs) => fs.any strModelEntry
  | _ => false

/-- The body is a JSON object containing a boolean-valued `stream`
field. -/
def hasBoolStreamField : Option Jv → Bool
  | some (.obj fs) => fs.any boolStreamEntry
  | _ => false

/-- The body is a JSON object containing a `stream` field whose value is
the boolean `v`. -/
def hasBoolStreamValue (b : Option Jv) (v : Bool) : Bool :=
  match b with
  | some (.obj fs) => fs.any (boolStreamEntryWith v)
  | _ => false

/-- The body is a JSON object containing a `stream`-keyed entry of any
type. -/
def hasStreamEntry : Option Jv → Bool
  | some (.obj fs) => fs.any streamKeyEntry
  | _ => false

/-- The body is a JSON object containing a `stream` field whose value is
JSON null. -/
def hasNullStreamEntry : Option Jv → Bool
  | some (.obj fs) => fs.any nullStreamEntry
  | _ => false

/-- The body is a JSON object containing an integer-literal field named
`field`. -/
def hasIntField (b : Option Jv) (field : String) : Bool :=
  match b with
  | some (.obj fs) =>
      fs.any (fun kv =>
        keyIs kv.1 field &&
          (match kv.2 with
           | .int _ => true
           | _ => false))
  | _ => false

/-- Go struct `OllamaResponseMetrics { EvalCount *int64; PromptEvalCount
*int64 }` from main.go lines 28-31. -/
structure OllamaResponseMetrics where
  evalCount : Option Int := none
  promptEvalCount : Option Int := none
deriving DecidableEq, Repr

/-- Does the integer fit in Go's `int64`? -/
def int64Fits (z : Int) : Bool :=
  decide (-(2 ^ 63) ≤ z) && decide (z < 2 ^ 63)

/-- One decode step for a `*int64` field named `field`: an in-range
integer literal sets it, a JSON null resets it to nil, anything else
(wrong type, out-of-range literal) leaves it (and flags an error, see
`tokenTypeError`). -/
def tokenFieldStep (field : String) (a : Option Int) (kv : String × Jv) :
    Option Int :=
  if keyIs kv.1 field then
    match kv.2 with
    | .int z => if int64Fits z then some z else a
    | .null => none
    | _ => a
  else a

/-- An object entry that makes `json.Unmarshal` into
`OllamaResponseMetrics` return a non-nil error: a `eval_count` or
`prompt_eval_count` key whose value is not an in-range integer literal
and not null. -/
def tokenTypeError (kv : String × Jv) : Bool :=
  (keyIs kv.1 "eval_count" || keyIs kv.1 "prompt_eval_count") &&
    (match kv.2 with
     | .int z => !int64Fits z
     | .null => false
     | _ => true)

/-- `json.Unmarshal(respBuf, &m)` for `OllamaResponseMetrics` (main.go
line 228).  Second component: whether the returned error is non-nil.
Invalid JSON and non-object, non-null documents error with the struct
left at its zero value; a wrong-typed known field errors but decoding of
the other entries continues. -/
def unmarshalOllama : Option Jv → OllamaResponseMetrics × Bool
  | some (.obj fs) =>
      ({ evalCount := fs.foldl (tokenFieldStep "eval_count") none,
         promptEvalCount := fs.foldl (tokenFieldStep "prompt_eval_count") none },
       fs.any tokenTypeError)
  | some .null => ({}, false)
  | some _ => ({}, true)
  | none => ({}, true)

/-- One update of the metric registry, with the labels and the exact
amount passed to `Add` (counters carrying an amount) or the fact of one
`Observe` call (the duration histogram; the observed seconds are wall
clock and not modelled). -/
inductive MetricEvent where
  | reqTotal (endpoint model status stream : String) : MetricEvent
  | durationObs (endpoint model stream : String) : MetricEvent
  | bytesInEv (endpoint model stream : String) (amount : Nat) : MetricEvent
  | bytesOutEv (endpoint model stream : String) (amount : Nat) : MetricEvent
  | tokensInEv (endpoint model : String) (amount : Int) : MetricEvent
  | tokensOutEv (endpoint model : String) (amount : Int) : MetricEvent
deriving DecidableEq, Repr

/-- The inbound request body, abstracted to what the handler consumes:
its byte length (for `request_bytes_in_total`) and its parse result. -/
structure ReqBody where
  len : Nat
  parsed : Option Jv

/-- A fully buffered upstream response body, abstracted the same way. -/
structure RespBody where
  len : Nat
  parsed : Option Jv

/-- Outcome of `io.Copy(w, resp.Body)` in streaming mode: `n` is the
number of bytes the copy reports written to the client (`io.Copy`
returns the written count even when it stops on an error). -/
structure CopyOutcome where
  n : Nat
  errored : Bool

/-- A successful upstream call and the environment's behaviour for the
rest of that request: the upstream status, the outcome of reading the
whole upstream body (buffered mode), the outcome `(bytes written, ok)`
of `w.Write(respBuf)` (buffered mode), and the copy outcome (streaming
mode).  Only the fields of the mode actually taken are consumed. -/
structure Upstream where
  status : Nat
  bufferedRead : Except Unit RespBody
  writeOutcome : Nat × Bool
  copy : CopyOutcome

/-- The per-request environment: the outcome of reading the inbound
body, and the outcome of the upstream call (`none` = transport error,
the `err != nil` branch of `httpClient.Do`). -/
structure Env where
  bodyRead : Except Unit ReqBody
  upstream : Option Upstream

/-- What one handler invocation did: the status code sent to the client
(the argument of `WriteHeader`, or of `http.Error` on the error paths),
the ordered metric-registry updates, and how many upstream calls were
issued. -/
structure HandlerResult where
  responseStatus : Nat
  events : List MetricEvent
  upstreamCalls : Nat
deriving Repr

/-- The token-counter updates of the buffered branch (main.go lines
226-235): nothing when the decode errored, otherwise one `Add` per
present field, prompt first. -/
def tokenEmits (endpoint model : String) (dm : OllamaResponseMetrics × Bool) :
    List MetricEvent :=
  if dm.2 then []
  else
    (match dm.1.promptEvalCount with
     | some z => [MetricEvent.tokensInEv endpoint model z]
     | none => []) ++
    (match dm.1.evalCount with
     | some z => [MetricEvent.tokensOutEv endpoint model z]
     | none => [])

/-- The embedding of `proxyHandler` (main.go lines 133-260).  The
`http.NewRequestWithContext` failure branch (lines 176-179) is not
modelled: it can only fire on an invalid method or URL, and the method
comes from the HTTP server and the URL from the already-parsed upstream
base, so it is unreachable in this program. -/
def proxyHandler (endpoint : String) (env : Env) : HandlerResult :=
  match env.bodyRead with
  | .error _ => ⟨400, [], 0⟩
  | .ok rb =>
    let model := extractedModel rb.parsed
    let stream := extractedStream rb.parsed
    let sl := streamLabel stream
    let ev0 : List MetricEvent := [.bytesInEv endpoint model sl rb.len]
    match env.upstream with
    | none =>
        let sc : Nat := 502
        ⟨sc,
         ev0 ++ [.reqTotal endpoint model (toString sc) sl,
                 .durationObs endpoint model sl],
         1⟩
    | some u =>
        let statusLabel := toString u.status
        if stream then
          ⟨u.status,
           ev0 ++ [.bytesOutEv endpoint model sl u.copy.n,
                   .reqTotal endpoint model statusLabel sl,
                   .durationObs endpoint model sl],
           1⟩
        else
          match u.bufferedRead with
          | .error _ => ⟨u.status, ev0, 1⟩
          | .ok resp =>
              ⟨u.status,
               ev0 ++ [.bytesOutEv endpoint model sl resp.len]
                   ++ tokenEmits endpoint model (unmarshalOllama resp.parsed)
                   ++ [.reqTotal endpoint model statusLabel sl,
                       .durationObs endpoint model sl],
               1⟩

/-- Is this event an increment of `requests_total`? -/
def isReqTotalEv : MetricEvent → Bool
  | .reqTotal _ _ _ _ => true
  | _ => false

/-- Is this event an observation of `request_duration_seconds`? -/
def isDurEv : MetricEvent → Bool
  | .durationObs _ _ _ => true
  | _ => false

/-- Is this event an update of a token counter? -/
def isTokenEv : MetricEvent → Bool
  | .tokensInEv _ _ _ => true
  | .tokensOutEv _ _ _ => true
  | _ => false

/-- The `requests_total` increments among a list of events. -/
def reqTotalEvents (evs : List MetricEvent) : List MetricEvent :=
  evs.filter isReqTotalEv

/-- The `request_duration_seconds` observations among a list of
events. -/
def durEvents (evs : List MetricEvent) : List MetricEvent :=
  evs.filter isDurEv

/-- The token-counter updates among a list of events. -/
def tokenEvents (evs : List MetricEvent) : List MetricEvent :=
  evs.filter isTokenEv

/-- The amounts passed to `Add` on the two token counters. -/
def tokenAmounts (evs : List MetricEvent) : List Int :=
  evs.filterMap fun e =>
    match e with
    | .tokensInEv _ _ z => some z
    | .tokensOutEv _ _ z => some z
    | _ => none

/-- The total amount added to `response_bytes_out_total`. -/
def bytesOutTotal (evs : List MetricEvent) : Nat :=
  (evs.filterMap fun e =>
    match e with
    | .bytesOutEv _ _ _ n => some n
    | _ => none).sum

/-- The number of relayed body bytes the client connection actually
accepted, per the contracts of `io.Copy` (returns the written count) and
`Write` (returns how many bytes were written before any error).  The
error bodies of the 400/502 paths are not relayed upstream bytes and are
not counted. -/
def actualBytesWritten (env : Env) : Nat :=
  match env.bodyRead with
  | .error _ => 0
  | .ok rb =>
    match env.upstream with
    | none => 0
    | some u =>
      if extractedStream rb.parsed then u.copy.n
      else
        match u.bufferedRead with
        | .error _ => 0
        | .ok _ => u.writeOutcome.1

/-- The request reached buffered mode and reading the upstream body
failed (the branch at main.go lines 218-222). -/
def bufferedReadFails (env : Env) : Bool :=
  match env.bodyRead, env.upstream with
  | .ok rb, some u =>
      !extractedStream rb.parsed &&
        (match u.bufferedRead with
         | .error _ => true
         | .ok _ => false)
  | _, _ => false

/-- The token-stats decode the buffered branch would use for this
environment (zero value when the environment never yields a buffered
body). -/
def decodedTokens (env : Env) : OllamaResponseMetrics :=
  match env.bodyRead, env.upstream with
  | .ok _, some u =>
      match u.bufferedRead with
      | .ok resp => (unmarshalOllama resp.parsed).1
      | .error _ => {}
  | _, _ => {}

/-- Both decoded token fields, where present, are non-negative. -/
def nonnegTokens (m : OllamaResponseMetrics) : Bool :=
  m.promptEvalCount.all (fun z => decide (0 ≤ z)) &&
    m.evalCount.all (fun z => decide (0 ≤ z))

theorem foldl_modelStep_getD (fs : List (String × Jv)) :
    ∀ (a : Option String) (m : String),
      fs.foldl modelStep (a.getD m) = (fs.foldl goModelStep a).getD m := by
  induction fs with
  | nil => intro a m; rfl
  | cons kv fs ih =>
    intro a m
    obtain ⟨k, v⟩ := kv
    by_cases hk : keyIs k "model" = true
    · cases v with
      | str s =>
          simpa [modelStep, goModelStep, hk] using ih (some s) m
      | null => simpa [modelStep, goModelStep, hk] using ih a m
      | bool b => simpa [modelStep, goModelStep, hk] using ih a m
      | int z => simpa [modelStep, goModelStep, hk] using ih a m
      | nonIntNum => simpa [modelStep, goModelStep, hk] using ih a m
      | arr xs => simpa [modelStep, goModelStep, hk] using ih a m
      | obj gs => simpa [modelStep, goModelStep, hk] using ih a m
    · simpa [modelStep, goModelStep, hk] using ih a m

theorem model_eq_goModelField (b : Option Jv) :
    (unmarshalRequestPayload b).model = (goModelField b).getD "" := by
  match b with
  | some (.obj fs) =>
      simpa [unmarshalRequestPayload, goModelField] using
        foldl_modelStep_getD fs none ""
  | some .null => rfl
  | some (.bool _) => rfl
  | some (.str _) => rfl
  | some (.int _) => rfl
  | some .nonIntNum => rfl
  | some (.arr _) => rfl
  | none => rfl

theorem stream_eq_goStreamField (b : Option Jv) :
    (unmarshalRequestPayload b).stream = goStreamField b := by
  match b with
  | some (.obj fs) => rfl
  | some .null => rfl
  | some (.bool _) => rfl
  | some (.str _) => rfl
  | some (.int _) => rfl
  | some .nonIntNum => rfl
  | some (.arr _) => rfl
  | none => rfl

theorem foldl_goModelStep_none_iff (fs : List (String × Jv)) :
    ∀ a, fs.foldl goModelStep a = none ↔
      (a = none ∧ fs.any strModelEntry = false) := by
  induction fs with
  | nil => intro a; simp
  | cons kv fs ih =>
    intro a
    obtain ⟨k, v⟩ := kv
    by_cases hk : keyIs k "model" = true
    · cases v with
      | str s =>
          simp [goModelStep, strModelEntry, isStrVal, hk, ih (some s)]
      | null => simpa [goModelStep, strModelEntry, isStrVal, hk] using ih a
      | bool b => simpa [goModelStep, strModelEntry, isStrVal, hk] using ih a
      | int z => simpa [goModelStep, strModelEntry, isStrVal, hk] using ih a
      | nonIntNum => simpa [goModelStep, strModelEntry, isStrVal, hk] using ih a
      | arr xs => simpa [goModelStep, strModelEntry, isStrVal, hk] using ih a
      | obj gs => simpa [goModelStep, strModelEntry, isStrVal, hk] using ih a
    · simpa [goModelStep, strModelEntry, hk] using ih a

theorem foldl_streamStep_noEntry (fs : List (String × Jv)) :
    ∀ a, fs.any streamKeyEntry = false → fs.foldl streamStep a = a := by
  induction fs with
  | nil => intro a _; rfl
  | cons kv fs ih =>
    intro a h
    obtain ⟨k, v⟩ := kv
    simp only [List.any_cons, Bool.or_eq_false_iff] at h
    have hk : keyIs k "stream" = false := by
      simpa [streamKeyEntry] using h.1
    rw [List.foldl_cons,
        show streamStep a (k, v) = a by simp [streamStep, hk]]
    exact ih a h.2

theorem foldl_streamStep_someTrue (fs : List (String × Jv)) :
    ∀ a, fs.foldl streamStep a = some true →
      a = some true ∨ fs.any (boolStreamEntryWith true) = true := by
  induction fs with
  | nil => intro a h; exact Or.inl h
  | cons kv fs ih =>
    intro a h
    obtain ⟨k, v'⟩ := kv
    rw [List.foldl_cons] at h
    by_cases hk : keyIs k "stream" = true
    · cases v' with
      | bool b =>
          rw [show streamStep a (k, Jv.bool b) = some b by
                simp [streamStep, hk]] at h
          rcases ih (some b) h with h1 | h1
          · refine Or.inr ?_
            simp only [Option.some.injEq] at h1
            simp [boolStreamEntryWith, hk, h1]
          · exact Or.inr (by simp [h1])
      | null =>
          rw [show streamStep a (k, Jv.null) = none by
                simp [streamStep, hk]] at h
          rcases ih none h with h1 | h1
          · exact absurd h1 (by simp)
          · exact Or.inr (by simp [h1])
      | str s =>
          rw [show streamStep a (k, Jv.str s) = some (a.getD false) by
                simp [streamStep, hk]] at h
          rcases ih (some (a.getD false)) h with h1 | h1
          · simp only [Option.some.injEq] at h1
            cases a with
            | none => simp at h1
            | some x => exact Or.inl (by simpa using congrArg some h1)
          · exact Or.inr (by simp [h1])
      | int z =>
          rw [show streamStep a (k, Jv.int z) = some (a.getD false) by
                simp [streamStep, hk]] at h
          rcases ih (some (a.getD false)) h with h1 | h1
          · simp only [Option.some.injEq] at h1
            cases a with
            | none => simp at h1
            | some x => exact Or.inl (by simpa using congrArg some h1)
          · exact Or.inr (by simp [h1])
      | nonIntNum =>
          rw [show streamStep a (k, Jv.nonIntNum) = some (a.getD false) by
                simp [streamStep, hk]] at h
          rcases ih (some (a.getD false)) h with h1 | h1
          · simp only [Option.some.injEq] at h1
            cases a with
            | none => simp at h1
            | some x => exact Or.inl (by simpa using congrArg some h1)
          · exact Or.inr (by simp [h1])
      | arr xs =>
          rw [show streamStep a (k, Jv.arr xs) = some (a.getD false) by
                simp [streamStep, hk]] at h
          rcases ih (some (a.getD false)) h with h1 | h1
          · simp only [Option.some.injEq] at h1
            cases a with
            | none => simp at h1
            | some x => exact Or.inl (by simpa using congrArg some h1)
          · exact Or.inr (by simp [h1])
      | obj gs =>
          rw [show streamStep a (k, Jv.obj gs) = some (a.getD false) by
                simp [streamStep, hk]] at h
          rcases ih (some (a.getD false)) h with h1 | h1
          · simp only [Option.some.injEq] at h1
            cases a with
            | none => simp at h1
            | some x => exact Or.inl (by simpa using congrArg some h1)
          · exact Or.inr (by simp [h1])
    · rw [show streamStep a (k, v') = a by simp [streamStep, hk]] at h
      rcases ih a h with h1 | h1
      · exact Or.inl h1
      · exact Or.inr (by simp [h1])

theorem foldl_streamStep_wrongTyped (fs : List (String × Jv)) :
    ∀ a, fs.any boolStreamEntry = false → fs.any nullStreamEntry = false →
      fs.any streamKeyEntry = true →
      fs.foldl streamStep a = some (a.getD false) := by
  induction fs with
  | nil => intro a _ _ h; simp at h
  | cons kv fs ih =>
    intro a hb hn hs
    obtain ⟨k, v⟩ := kv
    simp only [List.any_cons, Bool.or_eq_false_iff] at hb hn
    rw [List.foldl_cons]
    by_cases hk : keyIs k "stream" = true
    · have hstep : streamStep a (k, v) = some (a.getD false) := by
        cases v with
        | bool b =>
            exact absurd hb.1 (by simp [boolStreamEntry, isBoolVal, hk])
        | null =>
            exact absurd hn.1 (by simp [nullStreamEntry, hk])
        | str s => simp [streamStep, hk]
        | int z => simp [streamStep, hk]
        | nonIntNum => simp [streamStep, hk]
        | arr xs => simp [streamStep, hk]
        | obj gs => simp [streamStep, hk]
      rw [hstep]
      by_cases hfs : fs.any streamKeyEntry = true
      · simpa using ih (some (a.getD false)) hb.2 hn.2 hfs
      · have hfs' : fs.any streamKeyEntry = false := by
          simpa using hfs
        exact foldl_streamStep_noEntry fs (some (a.getD false)) hfs'
    · rw [show streamStep a (k, v) = a by simp [streamStep, hk]]
      have hs' : fs.any streamKeyEntry = true := by
        simp only [List.any_cons] at hs
        simpa [streamKeyEntry, hk] using hs
      exact ih a hb.2 hn.2 hs'

theorem reqTotal_filter_tokenEmits (ep m : String)
    (dm : OllamaResponseMetrics × Bool) :
    (tokenEmits ep m dm).filter isReqTotalEv = [] := by
  obtain ⟨⟨ec, pc⟩, e⟩ := dm
  cases e <;> cases pc <;> cases ec <;>
    simp [tokenEmits, isReqTotalEv]

theorem dur_filter_tokenEmits (ep m : String)
    (dm : OllamaResponseMetrics × Bool) :
    (tokenEmits ep m dm).filter isDurEv = [] := by
  obtain ⟨⟨ec, pc⟩, e⟩ := dm
  cases e <;> cases pc <;> cases ec <;>
    simp [tokenEmits, isDurEv]

theorem token_filter_tokenEmits (ep m : String)
    (dm : OllamaResponseMetrics × Bool) :
    (tokenEmits ep m dm).filter isTokenEv = tokenEmits ep m dm := by
  obtain ⟨⟨ec, pc⟩, e⟩ := dm
  cases e <;> cases pc <;> cases ec <;>
    simp [tokenEmits, isTokenEv]

theorem bytesOut_filterMap_tokenEmits (ep m : String)
    (dm : OllamaResponseMetrics × Bool) :
    ((tokenEmits ep m dm).filterMap fun e =>
      match e with
      | .bytesOutEv _ _ _ n => some n
      | _ => none) = [] := by
  obtain ⟨⟨ec, pc⟩, e⟩ := dm
  cases e <;> cases pc <;> cases ec <;>
    simp [tokenEmits]

theorem tokenAmounts_tokenEmits (ep m : String)
    (dm : OllamaResponseMetrics × Bool) :
    tokenAmounts (tokenEmits ep m dm) =
      if dm.2 then []
      else
        (match dm.1.promptEvalCount with
         | some z => [z]
         | none => []) ++
        (match dm.1.evalCount with
         | some z => [z]
         | none => []) := by
  obtain ⟨⟨ec, pc⟩, e⟩ := dm
  cases e <;> cases pc <;> cases ec <;>
    simp [tokenEmits, tokenAmounts]

/-- C3 (counterexample): the body `{"model":""}` contains a string-valued
`model` field, yet the extracted model is `"unknown"`, not the verbatim
field value — the defaulting also triggers on the empty string, so the
claimed "iff" and the verbatim clause both fail at this input. -/
theorem c3_counterexample :
    hasStringModelField (some (.obj [("model", Jv.str "")])) = true ∧
    extractedModel (some (.obj [("model", Jv.str "")])) = "unknown" := by
  decide

/-- Claim C3 (amended): the extracted model is `"unknown"` iff the body
is absent, not valid JSON, or lacks a string `model` field
(`goModelField b = none`, shown equivalent to `hasStringModelField b =
false`), or the decoded `model` string is `""` or the literal
`"unknown"`; every nonempty decoded `model` string is taken verbatim. -/
theorem c3_model_default_amended (b : Option Jv) :
    (extractedModel b = "unknown" ↔
       goModelField b = none ∨ goModelField b = some "" ∨
         goModelField b = some "unknown") ∧
    (goModelField b = none ↔ hasStringModelField b = false) ∧
    (∀ s, goModelField b = some s → s ≠ "" → extractedModel b = s) := by
  have hm := model_eq_goModelField b
  refine ⟨?_, ?_, ?_⟩
  · rcases hgm : goModelField b with _ | s
    · rw [hgm] at hm
      simp [extractedModel, hm, hgm]
    · rw [hgm] at hm
      by_cases hs : s = ""
      · subst hs; simp [extractedModel, hm, hgm]
      · by_cases hu : s = "unknown"
        · subst hu; simp [extractedModel, hm, hgm]
        · simp [extractedModel, hm, hgm, hs, hu]
  · cases b with
    | none => simp [goModelField, hasStringModelField]
    | some v =>
      cases v with
      | obj fs =>
          simpa [goModelField, hasStringModelField] using
            foldl_goModelStep_none_iff fs none
      | null => simp [goModelField, hasStringModelField]
      | bool c => simp [goModelField, hasStringModelField]
      | str s => simp [goModelField, hasStringModelField]
      | int z => simp [goModelField, hasStringModelField]
      | nonIntNum => simp [goModelField, hasStringModelField]
      | arr xs => simp [goModelField, hasStringModelField]
  · intro s hgm hs
    rw [hgm] at hm
    simp [extractedModel, hm, hs]

/-- Witness for the amended C3 at the body `{"model":"llama3"}`. -/
theorem c3_model_default_amended_witness :
    goModelField (some (.obj [("model", Jv.str "llama3")])) = some "llama3" ∧
    extractedModel (some (.obj [("model", Jv.str "llama3")])) = "llama3" :=
  ⟨by decide,
   (c3_model_default_amended (some (.obj [("model", Jv.str "llama3")]))).2.2
     "llama3" (by decide) (by decide)⟩

/-- Claim C5: when the upstream call fails with a transport error, the
handler sends a 502 to the client, increments `requests_total` once with
status label "502" and the request's endpoint/model/stream labels,
observes `request_duration_seconds` once with matching labels, and makes
exactly one upstream call (no retry).  The result is fully determined
before any relay-mode data exists (the environment carries no upstream
response at all), so no relay-mode branch is involved; the statement
covers both values of the extracted stream flag.  The `bytesInEv` update
precedes the upstream call in the source (main.go line 168). -/
theorem c5_upstream_error_path (ep : String) (rb : ReqBody) :
    proxyHandler ep ⟨Except.ok rb, none⟩ =
      ⟨502,
       [MetricEvent.bytesInEv ep (extractedModel rb.parsed)
          (streamLabel (extractedStream rb.parsed)) rb.len,
        MetricEvent.reqTotal ep (extractedModel rb.parsed) "502"
          (streamLabel (extractedStream rb.parsed)),
        MetricEvent.durationObs ep (extractedModel rb.parsed)
          (streamLabel (extractedStream rb.parsed))],
       1⟩ := rfl

/-- C6 (counterexample): the body `{"stream":"true"}` has no
boolean-valued `stream` field — the field is wrong-typed — so the claim
says the extracted flag takes its default value `true`; but
`encoding/json` allocates the `*bool` pointee (to `false`) before the
type check fails, so the program extracts `false` and runs in buffered
mode. -/
theorem c6_counterexample :
    hasBoolStreamField (some (.obj [("stream", Jv.str "true")])) = false ∧
    extractedStream (some (.obj [("stream", Jv.str "true")])) = false := by
  decide

/-- Claim C6 (amended): the extracted stream flag is the default `true`
when the body is absent, not valid JSON, not an object, or has no
`stream`-keyed entry at all, and in general exactly when the decoded
`*bool` ends up nil; when the decoder yields a boolean `v` the flag
equals `v`.  Contrary to the claim, a wrong-typed non-null `stream`
value does not default: Go allocates the `*bool` before the type check,
so a body whose `stream` entries are all wrong-typed (none boolean, none
null) yields `false`; the flag is `true` non-vacuously only when an
actual boolean `true` entry is present. -/
theorem c6_stream_default_amended (b : Option Jv) :
    (hasStreamEntry b = false → extractedStream b = true) ∧
    (goStreamField b = none → extractedStream b = true) ∧
    (∀ v, goStreamField b = some v → extractedStream b = v) ∧
    (goStreamField b = some true → hasBoolStreamValue b true = true) ∧
    (hasStreamEntry b = true → hasBoolStreamField b = false →
       hasNullStreamEntry b = false → extractedStream b = false) := by
  have hseq := stream_eq_goStreamField b
  refine ⟨?_, ?_, ?_, ?_, ?_⟩
  · intro h
    have hnone : goStreamField b = none := by
      cases b with
      | none => rfl
      | some v =>
        cases v with
        | obj fs =>
            have h' : fs.any streamKeyEntry = false := by
              simpa [hasStreamEntry] using h
            simpa [goStreamField] using foldl_streamStep_noEntry fs none h'
        | null => rfl
        | bool c => rfl
        | str s => rfl
        | int z => rfl
        | nonIntNum => rfl
        | arr xs => rfl
    simp [extractedStream, hseq, hnone]
  · intro h
    simp [extractedStream, hseq, h]
  · intro v hv
    simp [extractedStream, hseq, hv]
  · intro hv
    cases b with
    | none => simp [goStreamField] at hv
    | some jv =>
      cases jv with
      | obj fs =>
          have hsome := foldl_streamStep_someTrue fs none
            (by simpa [goStreamField] using hv)
          rcases hsome with h1 | h1
          · exact absurd h1 (by simp)
          · simpa [hasBoolStreamValue] using h1
      | null => simp [goStreamField] at hv
      | bool c => simp [goStreamField] at hv
      | str s => simp [goStreamField] at hv
      | int z => simp [goStreamField] at hv
      | nonIntNum => simp [goStreamField] at hv
      | arr xs => simp [goStreamField] at hv
  · intro hse hbf hnn
    cases b with
    | none => simp [hasStreamEntry] at hse
    | some jv =>
      cases jv with
      | obj fs =>
          have hfold := foldl_streamStep_wrongTyped fs none
            (by simpa [hasBoolStreamField] using hbf)
            (by simpa [hasNullStreamEntry] using hnn)
            (by simpa [hasStreamEntry] using hse)
          have hfalse : goStreamField (some (.obj fs)) = some false := by
            simpa [goStreamField] using hfold
          simp [extractedStream, hseq, hfalse]
      | null => simp [hasStreamEntry] at hse
      | bool c => simp [hasStreamEntry] at hse
      | str s => simp [hasStreamEntry] at hse
      | int z => simp [hasStreamEntry] at hse
      | nonIntNum => simp [hasStreamEntry] at hse
      | arr xs => simp [hasStreamEntry] at hse

/-- Witness for the amended C6 at the body `{"stream":false}`. -/
theorem c6_stream_default_amended_witness :
    goStreamField (some (.obj [("stream", Jv.bool false)])) = some false ∧
    extractedStream (some (.obj [("stream", Jv.bool false)])) = false :=
  ⟨by decide,
   (c6_stream_default_amended (some (.obj [("stream", Jv.bool false)]))).2.2.1
     false (by decide)⟩

/-- Claim C7: when the extracted stream flag is true, the handler never
updates a token counter, whatever the upstream response and copy outcome
(the environment `env` is arbitrary beyond the inbound body). -/
theorem c7_streaming_no_token_updates (ep : String) (env : Env)
    (rb : ReqBody) (hb : env.bodyRead = Except.ok rb)
    (hstream : extractedStream rb.parsed = true) :
    tokenEvents (proxyHandler ep env).events = [] := by
  cases hup : env.upstream with
  | none => simp [proxyHandler, hb, hup, tokenEvents, isTokenEv]
  | some u => simp [proxyHandler, hb, hup, hstream, tokenEvents, isTokenEv]

/-- A streaming request whose upstream body nonetheless carries token
fields, and whose copy ends in an error: used to witness C7. -/
def c7WitnessEnv : Env :=
  ⟨Except.ok ⟨20, some (.obj [("model", Jv.str "llama3"),
                              ("stream", Jv.bool true)])⟩,
   some ⟨200,
         Except.ok ⟨10, some (.obj [("eval_count", Jv.int 10),
                                    ("prompt_eval_count", Jv.int 3)])⟩,
         (10, true),
         ⟨500, true⟩⟩⟩

/-- Witness for C7 at a concrete streaming request. -/
theorem c7_streaming_no_token_updates_witness :
    extractedStream (some (.obj [("model", Jv.str "llama3"),
                                 ("stream", Jv.bool true)])) = true ∧
    tokenEvents (proxyHandler "/api/generate" c7WitnessEnv).events = [] :=
  ⟨by decide,
   c7_streaming_no_token_updates "/api/generate" c7WitnessEnv
     ⟨20, some (.obj [("model", Jv.str "llama3"), ("stream", Jv.bool true)])⟩
     rfl (by decide)⟩

/-- Claim C8: when reading the inbound request body fails, the handler
answers 400, emits no metric event at all, and makes no upstream call —
for every possible upstream behaviour. -/
theorem c8_body_read_failure (ep : String) (up : Option Upstream) (e : Unit) :
    proxyHandler ep ⟨Except.error e, up⟩ = ⟨400, [], 0⟩ := rfl

/-- A buffered-mode request whose upstream call succeeds but whose
upstream body read then fails (the branch at main.go lines 218-222). -/
def c1CexEnv : Env :=
  ⟨Except.ok ⟨10, some (.obj [("stream", Jv.bool false)])⟩,
   some ⟨200, Except.error (), (0, false), ⟨0, false⟩⟩⟩

/-- C1 (counterexample): this request reaches the upstream-forwarding
stage (one upstream call is made) and terminates, yet neither
`requests_total` nor `request_duration_seconds` is updated: in buffered
mode a failure to read the upstream body returns from the handler before
the counter and histogram lines. -/
theorem c1_counterexample :
    (proxyHandler "/api/generate" c1CexEnv).upstreamCalls = 1 ∧
    reqTotalEvents (proxyHandler "/api/generate" c1CexEnv).events = [] ∧
    durEvents (proxyHandler "/api/generate" c1CexEnv).events = [] := by
  decide

/-- Claim C1 (amended): for every request that reaches the
upstream-forwarding stage, on every outcome branch EXCEPT the
buffered-mode upstream-body-read failure (where neither series is
updated), the handler increments `requests_total` exactly once and
observes `request_duration_seconds` exactly once, with the request's
endpoint/model/stream labels and with the status label equal to the
string form of the status sent to the client. -/
theorem c1_metrics_once_amended (ep : String) (env : Env) (rb : ReqBody)
    (hb : env.bodyRead = Except.ok rb)
    (hnf : bufferedReadFails env = false) :
    reqTotalEvents (proxyHandler ep env).events =
      [MetricEvent.reqTotal ep (extractedModel rb.parsed)
         (toString (proxyHandler ep env).responseStatus)
         (streamLabel (extractedStream rb.parsed))] ∧
    durEvents (proxyHandler ep env).events =
      [MetricEvent.durationObs ep (extractedModel rb.parsed)
         (streamLabel (extractedStream rb.parsed))] := by
  cases hup : env.upstream with
  | none =>
      simp [proxyHandler, hb, hup, reqTotalEvents, durEvents,
            isReqTotalEv, isDurEv]
  | some u =>
      cases hstream : extractedStream rb.parsed with
      | true =>
          simp [proxyHandler, hb, hup, hstream, reqTotalEvents, durEvents,
                isReqTotalEv, isDurEv]
      | false =>
          have hnf' : (match u.bufferedRead with
              | Except.error _ => true
              | Except.ok _ => false) = false := by
            simp only [bufferedReadFails, hb, hup, hstream] at hnf
            simpa using hnf
          cases hres : u.bufferedRead with
          | error e => rw [hres] at hnf'; exact absurd hnf' (by simp)
          | ok resp =>
              simp [proxyHandler, hb, hup, hstream, hres, reqTotalEvents,
                    durEvents, isReqTotalEv, isDurEv, List.filter_append,
                    reqTotal_filter_tokenEmits, dur_filter_tokenEmits]

/-- The inbound body used by the C1 witness. -/
def c1WitnessBody : ReqBody :=
  ⟨25, some (.obj [("model", Jv.str "llama3"), ("stream", Jv.bool true)])⟩

/-- A streaming request with a successful upstream call, used to witness
the amended C1. -/
def c1WitnessEnv : Env :=
  ⟨Except.ok c1WitnessBody,
   some ⟨200, Except.ok ⟨0, none⟩, (0, true), ⟨100, false⟩⟩⟩

/-- Witness for the amended C1 at a concrete streaming request. -/
theorem c1_metrics_once_amended_witness :
    bufferedReadFails c1WitnessEnv = false ∧
    (reqTotalEvents (proxyHandler "/api/generate" c1WitnessEnv).events =
       [MetricEvent.reqTotal "/api/generate"
          (extractedModel c1WitnessBody.parsed)
          (toString (proxyHandler "/api/generate" c1WitnessEnv).responseStatus)
          (streamLabel (extractedStream c1WitnessBody.parsed))] ∧
     durEvents (proxyHandler "/api/generate" c1WitnessEnv).events =
       [MetricEvent.durationObs "/api/generate"
          (extractedModel c1WitnessBody.parsed)
          (streamLabel (extractedStream c1WitnessBody.parsed))]) :=
  ⟨by decide,
   c1_metrics_once_amended "/api/generate" c1WitnessEnv c1WitnessBody rfl
     (by decide)⟩

/-- A buffered-mode request whose 5-byte upstream body is counted, but
whose write to the client fails after 0 bytes. -/
def c2CexEnv : Env :=
  ⟨Except.ok ⟨10, some (.obj [("stream", Jv.bool false)])⟩,
   some ⟨200, Except.ok ⟨5, none⟩, (0, false), ⟨0, false⟩⟩⟩

/-- C2 (counterexample): in buffered mode the handler adds the full
buffered body length to `response_bytes_out_total` before attempting the
client write, so when the write fails the amount added (5) differs from
the bytes actually written (0). -/
theorem c2_counterexample :
    bytesOutTotal (proxyHandler "/api/generate" c2CexEnv).events = 5 ∧
    actualBytesWritten c2CexEnv = 0 := by
  decide

/-- Claim C2 (amended): in streaming mode the amount added to
`response_bytes_out_total` equals the byte count returned by the copy —
the bytes actually written, including when the copy ends in an error; in
buffered mode the amount added equals the full buffered body length,
which equals the bytes actually written only when the client write
completes successfully. -/
theorem c2_bytes_out_amended (ep : String) (env : Env) (rb : ReqBody)
    (u : Upstream) (hb : env.bodyRead = Except.ok rb)
    (hup : env.upstream = some u) :
    (extractedStream rb.parsed = true →
       bytesOutTotal (proxyHandler ep env).events = u.copy.n ∧
       actualBytesWritten env = u.copy.n) ∧
    (extractedStream rb.parsed = false →
       ∀ resp, u.bufferedRead = Except.ok resp →
         bytesOutTotal (proxyHandler ep env).events = resp.len ∧
         (u.writeOutcome = (resp.len, true) →
            actualBytesWritten env = resp.len)) := by
  constructor
  · intro hstream
    refine ⟨?_, ?_⟩
    · simp [proxyHandler, hb, hup, hstream, bytesOutTotal]
    · simp [actualBytesWritten, hb, hup, hstream]
  · intro hstream resp hresp
    refine ⟨?_, ?_⟩
    · simp [proxyHandler, hb, hup, hstream, hresp, bytesOutTotal,
            List.filterMap_append, bytesOut_filterMap_tokenEmits]
    · intro hw
      simp [actualBytesWritten, hb, hup, hstream, hresp, hw]

/-- The inbound body used by the C2 witness. -/
def c2WitnessBody : ReqBody :=
  ⟨30, some (.obj [("model", Jv.str "llama3"), ("stream", Jv.bool true)])⟩

/-- The upstream behaviour used by the C2 witness: a stream of 500 bytes
copied without error. -/
def c2WitnessUp : Upstream :=
  ⟨200, Except.ok ⟨0, none⟩, (0, true), ⟨500, false⟩⟩

/-- Witness for the amended C2: a streaming request that relays 500
bytes adds exactly 500 to `response_bytes_out_total`. -/
theorem c2_bytes_out_amended_witness :
    extractedStream c2WitnessBody.parsed = true ∧
    bytesOutTotal
        (proxyHandler "/api/generate"
          ⟨Except.ok c2WitnessBody, some c2WitnessUp⟩).events = 500 ∧
    actualBytesWritten ⟨Except.ok c2WitnessBody, some c2WitnessUp⟩ = 500 := by
  refine ⟨by decide, ?_, ?_⟩
  · exact ((c2_bytes_out_amended "/api/generate"
      ⟨Except.ok c2WitnessBody, some c2WitnessUp⟩ c2WitnessBody c2WitnessUp
      rfl rfl).1 (by decide)).1
  · exact ((c2_bytes_out_amended "/api/generate"
      ⟨Except.ok c2WitnessBody, some c2WitnessUp⟩ c2WitnessBody c2WitnessUp
      rfl rfl).1 (by decide)).2

/-- An upstream body that is valid JSON with an integer `eval_count`
field but a wrong-typed `prompt_eval_count` field. -/
def c4CexResp : RespBody :=
  ⟨30, some (.obj [("eval_count", Jv.int 7),
                   ("prompt_eval_count", Jv.bool true)])⟩

/-- The buffered request delivering `c4CexResp`. -/
def c4CexEnv : Env :=
  ⟨Except.ok ⟨10, some (.obj [("stream", Jv.bool false)])⟩,
   some ⟨200, Except.ok c4CexResp, (30, true), ⟨0, false⟩⟩⟩

/-- C4 (counterexample): the buffered upstream body is JSON containing
the integer field `eval_count = 7`, yet no token counter is updated:
`json.Unmarshal` returns a non-nil error because of the wrong-typed
`prompt_eval_count`, and the `err == nil` guard suppresses both
increments. -/
theorem c4_counterexample :
    hasIntField c4CexResp.parsed "eval_count" = true ∧
    tokenEvents (proxyHandler "/api/generate" c4CexEnv).events = [] := by
  decide

/-- Claim C4 (amended): in buffered mode, when the upstream body
unmarshals into the token-stats structure without error, each token
counter is incremented by exactly its present field's value (prompt
first) and is unchanged when its field is absent; when the unmarshal
errors — e.g. because either token field is wrong-typed — both counters
are unchanged even if the other token field is a valid integer. -/
theorem c4_buffered_tokens_amended (ep : String) (env : Env) (rb : ReqBody)
    (u : Upstream) (resp : RespBody)
    (hb : env.bodyRead = Except.ok rb) (hup : env.upstream = some u)
    (hstream : extractedStream rb.parsed = false)
    (hresp : u.bufferedRead = Except.ok resp) :
    tokenEvents (proxyHandler ep env).events =
      (if (unmarshalOllama resp.parsed).2 then []
       else
         (match (unmarshalOllama resp.parsed).1.promptEvalCount with
          | some z => [MetricEvent.tokensInEv ep (extractedModel rb.parsed) z]
          | none => []) ++
         (match (unmarshalOllama resp.parsed).1.evalCount with
          | some z => [MetricEvent.tokensOutEv ep (extractedModel rb.parsed) z]
          | none => [])) := by
  have hmain : tokenEvents (proxyHandler ep env).events =
      tokenEmits ep (extractedModel rb.parsed) (unmarshalOllama resp.parsed) := by
    simp [proxyHandler, hb, hup, hstream, hresp, tokenEvents,
          List.filter_append, token_filter_tokenEmits, isTokenEv]
  rw [hmain]
  rfl

/-- The inbound body of spec Scenario A:
`{"model":"llama3","prompt":"Hi","stream":false}`. -/
def c4WitnessBody : ReqBody :=
  ⟨44, some (.obj [("model", Jv.str "llama3"), ("prompt", Jv.str "Hi"),
                   ("stream", Jv.bool false)])⟩

/-- The upstream body of spec Scenario A:
`{"response":"...","eval_count":10,"prompt_eval_count":3}`. -/
def c4WitnessResp : RespBody :=
  ⟨60, some (.obj [("response", Jv.str "ok"), ("eval_count", Jv.int 10),
                   ("prompt_eval_count", Jv.int 3)])⟩

/-- The environment of spec Scenario A. -/
def c4WitnessEnv : Env :=
  ⟨Except.ok c4WitnessBody,
   some ⟨200, Except.ok c4WitnessResp, (60, true), ⟨0, false⟩⟩⟩

/-- Witness for the amended C4 at spec Scenario A: prompt_tokens_total
+3 and completion_tokens_total +10. -/
theorem c4_buffered_tokens_amended_witness :
    tokenEvents (proxyHandler "/api/generate" c4WitnessEnv).events =
      [MetricEvent.tokensInEv "/api/generate" "llama3" 3,
       MetricEvent.tokensOutEv "/api/generate" "llama3" 10] := by
  have h := c4_buffered_tokens_amended "/api/generate" c4WitnessEnv
    c4WitnessBody ⟨200, Except.ok c4WitnessResp, (60, true), ⟨0, false⟩⟩
    c4WitnessResp rfl rfl (by decide) rfl
  rw [h]
  decide

/-- Claim C9: in buffered mode the token extraction never inspects the
upstream status code: with the status `s` universally quantified and
absent from the right-hand side, the token-counter updates are exactly
those determined by the decoded body, so a body with integer token
fields increments the counters even under an error status. -/
theorem c9_tokens_ignore_status (ep : String) (rb : ReqBody) (s : Nat)
    (wo : Nat × Bool) (cp : CopyOutcome) (resp : RespBody)
    (hstream : extractedStream rb.parsed = false) :
    tokenEvents (proxyHandler ep
        ⟨Except.ok rb, some ⟨s, Except.ok resp, wo, cp⟩⟩).events =
      (if (unmarshalOllama resp.parsed).2 then []
       else
         (match (unmarshalOllama resp.parsed).1.promptEvalCount with
          | some z => [MetricEvent.tokensInEv ep (extractedModel rb.parsed) z]
          | none => []) ++
         (match (unmarshalOllama resp.parsed).1.evalCount with
          | some z => [MetricEvent.tokensOutEv ep (extractedModel rb.parsed) z]
          | none => [])) := by
  have hmain : tokenEvents (proxyHandler ep
      ⟨Except.ok rb, some ⟨s, Except.ok resp, wo, cp⟩⟩).events =
      tokenEmits ep (extractedModel rb.parsed) (unmarshalOllama resp.parsed) := by
    simp [proxyHandler, hstream, tokenEvents, List.filter_append,
          token_filter_tokenEmits, isTokenEv]
  rw [hmain]
  rfl

/-- The inbound body used by the C9 witness. -/
def c9WitnessBody : ReqBody :=
  ⟨20, some (.obj [("model", Jv.str "llama3"), ("stream", Jv.bool false)])⟩

/-- The upstream body used by the C9 witness (token counts under an
error status). -/
def c9WitnessResp : RespBody :=
  ⟨40, some (.obj [("eval_count", Jv.int 10),
                   ("prompt_eval_count", Jv.int 3)])⟩

/-- Witness for C9: upstream status 404, token counters still updated
by 3 and 10. -/
theorem c9_tokens_ignore_status_witness :
    tokenEvents (proxyHandler "/api/generate"
        ⟨Except.ok c9WitnessBody,
         some ⟨404, Except.ok c9WitnessResp, (40, true), ⟨0, false⟩⟩⟩).events =
      [MetricEvent.tokensInEv "/api/generate" "llama3" 3,
       MetricEvent.tokensOutEv "/api/generate" "llama3" 10] := by
  have h := c9_tokens_ignore_status "/api/generate" c9WitnessBody 404
    (40, true) ⟨0, false⟩ c9WitnessResp (by decide)
  rw [h]
  decide

/-- A buffered request whose upstream body reports a negative
`eval_count`. -/
def c10CexEnv : Env :=
  ⟨Except.ok ⟨10, some (.obj [("stream", Jv.bool false)])⟩,
   some ⟨200, Except.ok ⟨20, some (.obj [("eval_count", Jv.int (-1))])⟩,
         (20, true), ⟨0, false⟩⟩⟩

/-- C10 (counterexample): an upstream body `{"eval_count":-1}` makes the
handler pass the negative amount -1 to the completion-token counter's
`Add` — nothing guards against negative upstream-reported counts, so the
Prometheus counter contract is violated at this input. -/
theorem c10_counterexample :
    tokenAmounts (proxyHandler "/api/generate" c10CexEnv).events = [-1] ∧
    (-1 : Int) < 0 := by
  decide

/-- Claim C10 (amended): the amounts passed to the token counters'
`Add` are exactly the decoded upstream field values, so they are all
non-negative whenever the decoded `prompt_eval_count`/`eval_count`
values (when present) are non-negative; a negative upstream value is
passed through unguarded. -/
theorem c10_token_adds_nonneg_amended (ep : String) (env : Env)
    (h : nonnegTokens (decodedTokens env) = true) :
    ((tokenAmounts (proxyHandler ep env).events).all
      fun z => decide (0 ≤ z)) = true := by
  cases henv : env.bodyRead with
  | error e => simp [proxyHandler, henv, tokenAmounts]
  | ok rb =>
    cases hup : env.upstream with
    | none => simp [proxyHandler, henv, hup, tokenAmounts]
    | some u =>
      cases hstream : extractedStream rb.parsed with
      | true => simp [proxyHandler, henv, hup, hstream, tokenAmounts]
      | false =>
        cases hres : u.bufferedRead with
        | error e =>
            simp [proxyHandler, henv, hup, hstream, hres, tokenAmounts]
        | ok resp =>
          have hd : decodedTokens env = (unmarshalOllama resp.parsed).1 := by
            simp [decodedTokens, henv, hup, hres]
          rw [hd] at h
          have hta : tokenAmounts (proxyHandler ep env).events =
              tokenAmounts (tokenEmits ep (extractedModel rb.parsed)
                (unmarshalOllama resp.parsed)) := by
            simp [proxyHandler, henv, hup, hstream, hres, tokenAmounts,
                  List.filterMap_append]
          rw [hta, tokenAmounts_tokenEmits]
          rcases hu : unmarshalOllama resp.parsed with ⟨⟨ec, pc⟩, err⟩
          rw [hu] at h
          cases err with
          | true => simp
          | false =>
              simp only [nonnegTokens, Option.all] at h
              cases pc <;> cases ec <;> simp_all

/-- The environment used by the C10 witness (prompt 3, eval 10). -/
def c10WitnessEnv : Env :=
  ⟨Except.ok ⟨10, some (.obj [("stream", Jv.bool false)])⟩,
   some ⟨200,
         Except.ok ⟨40, some (.obj [("eval_count", Jv.int 10),
                                    ("prompt_eval_count", Jv.int 3)])⟩,
         (40, true), ⟨0, false⟩⟩⟩

/-- Witness for the amended C10 at non-negative upstream counts. -/
theorem c10_token_adds_nonneg_amended_witness :
    nonnegTokens (decodedTokens c10WitnessEnv) = true ∧
    ((tokenAmounts (proxyHandler "/api/generate" c10WitnessEnv).events).all
      fun z => decide (0 ≤ z)) = true :=
  ⟨by decide,
   c10_token_adds_nonneg_amended "/api/generate" c10WitnessEnv (by decide)⟩

end OllamaProxy
